import Mathlib

/-!
Formal model of the SLA computation engine of `dashboard.py` (CM-SLA-APP).

Conventions of the embedding:
* Timestamps are minutes since a fixed epoch that falls on a Monday at 00:00
  (timezone-normalized, matching the single UTC-normalized reporting zone).
  Hence the calendar-day index of a timestamp `t` is `t / 1440` and its
  Python `weekday()` (Monday = 0) is `t / 1440 % 7`.
* Optional timestamps (`pandas` NaT / missing values) are `Option Nat`,
  with `none` standing for NaT.  `pd.to_datetime(..., errors="coerce")` is
  modelled by taking the already-coerced `Option Nat` as input: a missing or
  unparseable date field arrives as `none`.
* Python strings are Lean `String`s; `str.lower()` / `str.upper()` map
  `Char.toLower` / `Char.toUpper` over the characters (all table strings are
  ASCII), `a in b` is contiguous-substring containment, and `startswith` is
  prefix testing, each implemented executably below.
* Python dicts whose keys are strings become association lists in declaration
  order; `dict.get` is first-match lookup (keys are unique in the source).
-/

/-- Python `str.lower()` (ASCII-sufficient: maps `Char.toLower` over the text). -/
def pyLower (s : String) : String := ⟨s.data.map Char.toLower⟩

/-- Python `str.upper()` (ASCII-sufficient: maps `Char.toUpper` over the text). -/
def pyUpper (s : String) : String := ⟨s.data.map Char.toUpper⟩

/-- Python `str.startswith` on character lists. -/
def startsWithL (p s : List Char) : Bool :=
  match p, s with
  | [], _ => true
  | _, [] => false
  | a :: p', b :: s' => a == b && startsWithL p' s'

/-- Contiguous-sublist test on character lists (Python's `needle in hay`). -/
def containsSub (needle hay : List Char) : Bool :=
  match hay with
  | [] => needle.isEmpty
  | _ :: t => startsWithL needle hay || containsSub needle t

/-- Python `needle in hay` for strings. -/
def pyContains (needle hay : String) : Bool := containsSub needle.data hay.data

/-- Python `str.strip()` (whitespace removed from both ends). -/
def pyStrip (s : String) : String :=
  ⟨((s.data.dropWhile Char.isWhitespace).reverse.dropWhile Char.isWhitespace).reverse⟩

/-- Python `dict.get k`: first-match lookup in an association list. -/
def pyGet {α : Type} (m : List (String × α)) (k : String) : Option α :=
  match m with
  | [] => none
  | (k', v) :: rest => if k' = k then some v else pyGet rest k

/-! ### Team mapping (source lines 150-169) -/

/-- `TEAM_MAP`: category prefix → display name, in declaration order. -/
def TEAM_MAP : List (String × String) :=
  [("PS", "Performance Solutions"),
   ("Acquisition", "Acquisition & Growth"),
   ("SMB", "SMB"),
   ("MATS", "MATS"),
   ("Windows Store", "Windows Store"),
   ("AD", "Agency Development")]

/-- `resolve_team(category)`: first entry whose upper-cased key starts the
stripped, upper-cased category wins; empty category or no match → "Other". -/
def resolve_team (category : String) : String :=
  if category == "" then "Other"
  else
    match TEAM_MAP.find?
        (fun kv => startsWithL (pyUpper kv.1).data (pyUpper (pyStrip category)).data) with
    | some kv => kv.2
    | none => "Other"

/-! ### Scenario mapping (source lines 194-227) -/

/-- `SCENARIO_MAP`: ADO SubType keyword → display scenario, in declaration order. -/
def SCENARIO_MAP : List (String × String) :=
  [("Grouping or HM", "Customer Grouping / Hierarchy Management"),
   ("Personnel", "Personnel Changes"),
   ("SL", "Owned-By / Agency / Service Location Override"),
   ("Reparenting", "Owned-By / Agency / Service Location Override"),
   ("Book Assignment", "Book Assignment Update"),
   ("Book update in Dynamics", "Book Assignment Update"),
   ("Book update in Tech", "Book Assignment Update"),
   ("Quota Move", "Quota Moves"),
   ("Quota Moves", "Quota Moves"),
   ("Channel Partner", "Channel Partner Linkages"),
   ("Valid Win", "Weekly Win Processing"),
   ("Win Override", "Acquisition Win Override"),
   ("Growth MPM", "Pre/Post Growth MPM Assignment"),
   ("New Client Nomination", "New Client Nomination Processing"),
   ("Hierarchy Mapping", "Hierarchy Mapping"),
   ("New Joiner Mapping", "Mapping New Joiners to Sales Houses"),
   ("Bad Agency Setup", "Bad Agency Setup"),
   ("Missing Contacts", "Missing Contacts"),
   ("Unengaged", "Unengaged / Inactive Clients")]

/-- The loop condition of `resolve_scenario`:
`key.lower() in sub_type.lower() or sub_type.lower() in key.lower()`. -/
def scenarioMatch (kv : String × String) (sub_type : String) : Bool :=
  pyContains (pyLower kv.1) (pyLower sub_type) ||
  pyContains (pyLower sub_type) (pyLower kv.1)

/-- `resolve_scenario(sub_type)`: empty or "Unknown" → "Other"; otherwise the
scenario of the first bidirectionally-matching keyword, else the raw value. -/
def resolve_scenario (sub_type : String) : String :=
  if sub_type == "" || sub_type == "Unknown" then "Other"
  else
    match SCENARIO_MAP.find? (fun kv => scenarioMatch kv sub_type) with
    | some kv => kv.2
    | none => sub_type

/-! ### Scenario SLA definitions (source lines 233-401)

Each `SCENARIO_SLA` dict holds `"default"` (an int), string-valued
`"description"` and `"info"` entries, and possibly further integer-valued
keys (team exceptions).  `get_sla_days` skips `default`/`description`/`info`
by name and skips non-integer values via `isinstance(val, int)`, so the model
keeps the integer `default` plus the list of remaining integer-valued keys
(`extras`, in declaration order); the purely descriptive string entries play
no part in any computation. -/

structure SlaEntry where
  default : Nat
  extras : List (String × Nat)
deriving DecidableEq, Repr

/-- `SCENARIO_SLA`: scenario → SLA entry.  The only integer key besides
`default` in the whole catalog is `"MATS": 4` on "Book Assignment Update". -/
def SCENARIO_SLA : List (String × SlaEntry) :=
  [("Customer Grouping / Hierarchy Management", ⟨4, []⟩),
   ("Personnel Changes", ⟨3, []⟩),
   ("Owned-By / Agency / Service Location Override", ⟨2, []⟩),
   ("Channel Partner Linkages", ⟨3, []⟩),
   ("Book Assignment Update", ⟨2, [("MATS", 4)]⟩),
   ("Quota Moves", ⟨3, []⟩),
   ("Weekly Win Processing", ⟨3, []⟩),
   ("Acquisition Win Override", ⟨5, []⟩),
   ("Pre/Post Growth MPM Assignment", ⟨2, []⟩),
   ("New Client Nomination Processing", ⟨5, []⟩),
   ("Hierarchy Mapping", ⟨5, []⟩),
   ("Mapping New Joiners to Sales Houses", ⟨3, []⟩),
   ("Bad Agency Setup", ⟨5, []⟩),
   ("Missing Contacts", ⟨5, []⟩),
   ("Unengaged / Inactive Clients", ⟨5, []⟩)]

/-- `DEFAULT_SLA = {"default": 5, ...}`. -/
def DEFAULT_SLA : SlaEntry := ⟨5, []⟩

/-- A team-level override dict: optional `"default"` plus the scenario-keyword
entries (in declaration order). -/
structure TeamOverride where
  default : Option Nat
  extras : List (String × Nat)
deriving DecidableEq, Repr

/-- `TEAM_SLA_OVERRIDES` (source lines 370-379).  Note the
"Acquisition & Growth" dict has no `"default"` key. -/
def TEAM_SLA_OVERRIDES : List (String × TeamOverride) :=
  [("SMB", ⟨some 5, []⟩),
   ("Windows Store", ⟨some 3, []⟩),
   ("Acquisition & Growth",
     ⟨none,
      [("Book Assignment", 2),
       ("Grouping or HM", 4),
       ("Customer Grouping / Hierarchy Management", 4)]⟩)]

/-- `SCENARIO_SLA.get(scenario, DEFAULT_SLA)`. -/
def scenario_sla_lookup (scenario : String) : SlaEntry :=
  (pyGet SCENARIO_SLA scenario).getD DEFAULT_SLA

/-- Lines 397-401: scan a scenario entry's integer keys (other than
`default`) for one whose upper-cased text occurs in the upper-cased team
name; every entry of the catalog has a `"default"` key, so the final
`sla.get("default", 5)` is the entry's `default`. -/
def sla_from_entry (e : SlaEntry) (team : String) : Nat :=
  match e.extras.find? (fun kv => pyContains (pyUpper kv.1) (pyUpper team)) with
  | some kv => kv.2
  | none => e.default

/-- The `if team_overrides:` block of `get_sla_days` (lines 385-394) for a
present override dict: an empty dict is falsy and falls through to the
scenario level; a dict holding only `"default"` is the flat team SLA with
the scenario ignored; otherwise the first non-`default` key whose
lower-cased text occurs in the lower-cased scenario wins, then the dict's
`"default"` if present, then the scenario level. -/
def sla_from_team_override (ov : TeamOverride) (scenario team : String) : Nat :=
  match ov.extras, ov.default with
  | [], none => sla_from_entry (scenario_sla_lookup scenario) team
  | [], some d => d
  | e :: es, dflt =>
    match (e :: es).find? (fun kv => pyContains (pyLower kv.1) (pyLower scenario)) with
    | some kv => kv.2
    | none =>
      match dflt with
      | some d => d
      | none => sla_from_entry (scenario_sla_lookup scenario) team

/-- `get_sla_days(scenario, team)` (source lines 382-401): team-level
overrides are consulted first; a team without an override dict falls back to
the scenario-level catalog with its embedded team exceptions. -/
def get_sla_days (scenario team : String) : Nat :=
  match pyGet TEAM_SLA_OVERRIDES team with
  | some ov => sla_from_team_override ov scenario team
  | none => sla_from_entry (scenario_sla_lookup scenario) team

/-! ### Business-day helpers (source lines 408-436) -/

/-- `MONDAY_DEADLINE_SCENARIOS`: scenarios with a "next Monday" SLA deadline. -/
def MONDAY_DEADLINE_SCENARIOS : List String :=
  ["Acquisition Win Override", "Weekly Win Processing"]

/-- `next_monday(dt)` (lines 411-418): NaT for NaT; otherwise
`days_ahead = (7 - dt.weekday()) % 7`, bumped to 7 when it is 0, and the
result is `(dt + days_ahead days).normalize() + 23h59m`. -/
def next_monday (dt : Option Nat) : Option Nat :=
  match dt with
  | none => none
  | some t =>
    let days_ahead := if (7 - t / 1440 % 7) % 7 = 0 then 7 else (7 - t / 1440 % 7) % 7
    some ((t + days_ahead * 1440) / 1440 * 1440 + (23 * 60 + 59))

/-- The `while added < n` loop of `add_business_days`: step one calendar day
at a time; a step counts only when the new day's weekday index is 0-4. -/
def abd_go (n : Nat) (current added : Nat) : Nat :=
  if added < n then
    if (current + 1440) / 1440 % 7 < 5 then
      abd_go n (current + 1440) (added + 1)
    else
      abd_go n (current + 1440) added
  else current
termination_by (n - added) * 8 + (7 - current / 1440 % 7)
decreasing_by
  all_goals omega

/-- `add_business_days(start, n)` (lines 421-430): NaT when `start` is NaT or
`n` is None, else the loop result from `start` with `added = 0`. -/
def add_business_days (start : Option Nat) (n : Option Nat) : Option Nat :=
  match start, n with
  | some s, some m => some (abd_go m s 0)
  | _, _ => none

/-- `len(pd.bdate_range(a.normalize(), b.normalize()))` on day indices: the
number of dates in the inclusive range `[d1, d2]` whose weekday index is 0-4
(empty when `d2 < d1`). -/
def bdateRangeLen (d1 d2 : Nat) : Nat :=
  (List.range (d2 + 1 - d1)).countP (fun i => decide ((d1 + i) % 7 < 5))

/-- `business_days_between(start, end)` (lines 433-436): 0 if either side is
NaT, else `max(len(bdate_range(start.normalize(), end.normalize())) - 1, 0)`. -/
def business_days_between (start stop : Option Nat) : Int :=
  match start, stop with
  | some s, some e => max ((bdateRangeLen (s / 1440) (e / 1440) : Int) - 1) 0
  | _, _ => 0

/-! ### Ticket state projector (`_parse_items`, source lines 690-803) -/

/-- One raw work item after field extraction and date coercion: the date
columns have been through `pd.to_datetime(..., errors="coerce")`, so a
missing or unparseable value is `none`.  Fields not used by any SLA
computation (title, priority, assignee, requester, area path) are omitted. -/
structure RawItem where
  id : Nat
  state : String
  createdAt : Option Nat
  closedAt : Option Nat
  endDate : Option Nat
  stateChangeAt : Option Nat
  rawCategory : String
  subType : String
deriving DecidableEq, Repr

/-- `State not in ["Completed", "Cancelled"]` (line 720). -/
def is_open (state : String) : Bool :=
  !(state == "Completed" || state == "Cancelled")

/-- Line 741: `State.str.lower().str.contains("waiting for info|pending lockdown")`
— the regex alternation holds iff either literal occurs in the lowered state. -/
def is_paused (state : String) : Bool :=
  pyContains "waiting for info" (pyLower state) ||
  pyContains "pending lockdown" (pyLower state)

/-- Lines 727-730: scenario in `MONDAY_DEADLINE_SCENARIOS` and team equal to
"Acquisition & Growth". -/
def is_monday_deadline (scenario team : String) : Bool :=
  MONDAY_DEADLINE_SCENARIOS.contains scenario && team == "Acquisition & Growth"

/-- The closure as-of point, `EndDate if notna else (ClosedDate if notna else
ref_time)`, as written in `calc_elapsed`, `calc_remaining` and `sla_status`. -/
def closure_end (endDate closedAt : Option Nat) (refTime : Nat) : Nat :=
  match endDate with
  | some e => e
  | none =>
    match closedAt with
    | some c => c
    | none => refTime

/-- Pandas comparison `a <= b` where `b` may be NaT (a NaT comparison is
False). -/
def tsLe (a : Nat) (b : Option Nat) : Bool :=
  match b with
  | some b' => a ≤ b'
  | none => false

/-- The six `SLA_Status` labels (the source prefixes them with emoji glyphs). -/
inductive SlaStatus where
  | completed
  | completedLate
  | paused
  | onTrack
  | atRisk
  | breached
deriving DecidableEq, Repr

/-- One enriched row of the projected DataFrame (the columns the SLA engine
computes, plus the raw fields they were computed from). -/
structure Row where
  id : Nat
  state : String
  createdAt : Nat
  closedAt : Option Nat
  endDate : Option Nat
  stateChangeAt : Option Nat
  team : String
  scenario : String
  isOpen : Bool
  slaDays : Nat
  isMondayDeadline : Bool
  slaDeadline : Option Nat
  isPaused : Bool
  elapsed : Int
  remaining : Int
  status : SlaStatus
deriving DecidableEq, Repr

/-- `calc_elapsed` (lines 743-753): business days from creation to the as-of
point — closure end when closed, `StateChangeDate` (else `ref_time`) when
paused, `ref_time` otherwise. -/
def calc_elapsed (opn paused : Bool) (created : Nat)
    (endDate closedAt stateChangeAt : Option Nat) (refTime : Nat) : Int :=
  let stop :=
    if !opn then closure_end endDate closedAt refTime
    else if paused then stateChangeAt.getD refTime
    else refTime
  business_days_between (some created) (some stop)

/-- `calc_remaining` (lines 759-773): Monday-deadline rows measure business
days to/past the deadline (signed for closed rows); all others use
`SLA_Days - Elapsed_BDays`. -/
def calc_remaining (monday opn paused : Bool) (slaDays : Nat) (elapsed : Int)
    (endDate closedAt stateChangeAt : Option Nat) (slaDeadline : Option Nat)
    (refTime : Nat) : Int :=
  if monday then
    if !opn then
      let e := closure_end endDate closedAt refTime
      if tsLe e slaDeadline then business_days_between (some e) slaDeadline
      else -business_days_between slaDeadline (some e)
    else if paused then
      let pause_point := stateChangeAt.getD refTime
      business_days_between (some pause_point) slaDeadline
    else business_days_between (some refTime) slaDeadline
  else (slaDays : Int) - elapsed

/-- `sla_status` (lines 777-794), in the source's branch order. -/
def sla_status (monday opn paused : Bool) (slaDays : Nat) (elapsed remaining : Int)
    (endDate closedAt : Option Nat) (slaDeadline : Option Nat)
    (refTime : Nat) : SlaStatus :=
  if !opn then
    if monday then
      let e := closure_end endDate closedAt refTime
      if tsLe e slaDeadline then .completed else .completedLate
    else if elapsed ≤ (slaDays : Int) then .completed
    else .completedLate
  else if paused then .paused
  else if remaining > 1 then .onTrack
  else if remaining ≥ 0 then .atRisk
  else .breached

/-- The whole per-row pipeline of `_parse_items` for a row whose
`CreatedDate` survived the `dropna` (so `created` is a defined timestamp):
classification, SLA resolution, deadline, pause flag, elapsed, remaining and
status, each column exactly as the source computes it. -/
def project (it : RawItem) (created refTime : Nat) : Row :=
  let team := resolve_team it.rawCategory
  let scenario := resolve_scenario it.subType
  let opn := is_open it.state
  let slaDays := get_sla_days scenario team
  let monday := is_monday_deadline scenario team
  let slaDeadline :=
    if monday then next_monday (some created)
    else add_business_days (some created) (some slaDays)
  let paused := is_paused it.state
  let elapsed := calc_elapsed opn paused created it.endDate it.closedAt it.stateChangeAt refTime
  let remaining := calc_remaining monday opn paused slaDays elapsed
    it.endDate it.closedAt it.stateChangeAt slaDeadline refTime
  { id := it.id
    state := it.state
    createdAt := created
    closedAt := it.closedAt
    endDate := it.endDate
    stateChangeAt := it.stateChangeAt
    team := team
    scenario := scenario
    isOpen := opn
    slaDays := slaDays
    isMondayDeadline := monday
    slaDeadline := slaDeadline
    isPaused := paused
    elapsed := elapsed
    remaining := remaining
    status := sla_status monday opn paused slaDays elapsed remaining
      it.endDate it.closedAt slaDeadline refTime }

/-- `_parse_items` after row construction (lines 712-803): coerce dates,
`dropna(subset=["CreatedDate"])` — a row without a parseable creation date is
dropped — then compute every derived column for the surviving rows. -/
def parse_items (items : List RawItem) (refTime : Nat) : List Row :=
  items.filterMap (fun it =>
    match it.createdAt with
    | none => none
    | some c => some (project it c refTime))

/-! ### Theorems -/

/-- Claim C1: for every projected ticket, the derived `IsPaused` flag is true
iff the ticket is open and its state, lower-cased, contains "waiting for
info" or "pending lockdown"; in particular `IsPaused` is false whenever the
ticket is closed. -/
theorem isPaused_iff_open_and_pause_marker (it : RawItem) (c refTime : Nat) :
    (project it c refTime).isPaused
      = ((project it c refTime).isOpen &&
         (pyContains "waiting for info" (pyLower it.state) ||
          pyContains "pending lockdown" (pyLower it.state)))
    ∧ ((project it c refTime).isOpen = false → (project it c refTime).isPaused = false) := by
  have hP : (project it c refTime).isPaused = is_paused it.state := rfl
  have hO : (project it c refTime).isOpen = is_open it.state := rfl
  rw [hP, hO]
  have key : is_paused it.state = (is_open it.state && is_paused it.state) := by
    by_cases h1 : it.state = "Completed"
    · rw [h1]; decide
    · by_cases h2 : it.state = "Cancelled"
      · rw [h2]; decide
      · have ho : is_open it.state = true := by
          simp [is_open, h1, h2]
        rw [ho, Bool.true_and]
  refine ⟨by rw [key]; rfl, fun hclosed => ?_⟩
  rw [key, hclosed, Bool.false_and]

/-- Claim C1 witness: a concrete closed ticket is not open and not paused. -/
theorem isPaused_iff_open_and_pause_marker_witness :
    (project ⟨1, "Completed", some 0, none, none, none, "PS-x", "Quota Move"⟩ 0 100).isOpen = false
    ∧ (project ⟨1, "Completed", some 0, none, none, none, "PS-x", "Quota Move"⟩ 0 100).isPaused = false :=
  ⟨by decide,
   (isPaused_iff_open_and_pause_marker
     ⟨1, "Completed", some 0, none, none, none, "PS-x", "Quota Move"⟩ 0 100).2 (by decide)⟩

/-- Claim C3: the scenario catalog's team-embedded exception applies:
`get_sla_days "Book Assignment Update" "MATS"` is 4 (the `"MATS": 4`
integer key of the entry matches the team name) while
`get_sla_days "Book Assignment Update" "Performance Solutions"` is the
entry's default, 2. -/
theorem get_sla_days_book_assignment_update :
    get_sla_days "Book Assignment Update" "MATS" = 4
    ∧ get_sla_days "Book Assignment Update" "Performance Solutions" = 2 := by
  constructor <;> rfl

/-- Claim C4: the "SMB" team-level override contains only a `default` key, so
it is returned immediately for every scenario string whatsoever. -/
theorem get_sla_days_smb_flat (scenario : String) :
    get_sla_days scenario "SMB" = 5 := rfl

/-- Case analysis of `sla_status` as a pure function: closed rows get
Completed / Completed Late by the closure criterion (Monday rows compare the
closure point with the deadline, others compare elapsed with the allowance)
and nothing else; open paused rows get Paused unconditionally; open active
rows split on the remaining business days. -/
theorem sla_status_spec (monday opn paused : Bool) (slaDays : Nat)
    (elapsed remaining : Int) (endDate closedAt : Option Nat)
    (slaDeadline : Option Nat) (refTime : Nat) :
    (opn = false →
       (sla_status monday opn paused slaDays elapsed remaining endDate closedAt slaDeadline refTime
          = .completed
        ∨ sla_status monday opn paused slaDays elapsed remaining endDate closedAt slaDeadline refTime
          = .completedLate)
       ∧ (monday = true →
            (sla_status monday opn paused slaDays elapsed remaining endDate closedAt slaDeadline refTime
               = .completed
             ↔ tsLe (closure_end endDate closedAt refTime) slaDeadline = true))
       ∧ (monday = false →
            (sla_status monday opn paused slaDays elapsed remaining endDate closedAt slaDeadline refTime
               = .completed
             ↔ elapsed ≤ (slaDays : Int))))
    ∧ (opn = true → paused = true →
         sla_status monday opn paused slaDays elapsed remaining endDate closedAt slaDeadline refTime
           = .paused)
    ∧ (opn = true → paused = false →
         (remaining < 0 →
            sla_status monday opn paused slaDays elapsed remaining endDate closedAt slaDeadline refTime
              = .breached)
         ∧ (0 ≤ remaining → remaining ≤ 1 →
              sla_status monday opn paused slaDays elapsed remaining endDate closedAt slaDeadline refTime
                = .atRisk)
         ∧ (1 < remaining →
              sla_status monday opn paused slaDays elapsed remaining endDate closedAt slaDeadline refTime
                = .onTrack)) := by
  refine ⟨fun ho => ?_, fun ho hp => ?_, fun ho hp => ?_⟩
  · subst ho
    refine ⟨?_, fun hm => ?_, fun hm => ?_⟩
    · cases monday with
      | false =>
        by_cases hc : elapsed ≤ (slaDays : Int)
        · left; simp [sla_status, hc]
        · right; simp [sla_status, hc]
      | true =>
        by_cases hc : tsLe (closure_end endDate closedAt refTime) slaDeadline = true
        · left; simp [sla_status, hc]
        · right; simp [sla_status, hc]
    · subst hm
      by_cases hc : tsLe (closure_end endDate closedAt refTime) slaDeadline = true
      · simp [sla_status, hc]
      · simp [sla_status, hc]
    · subst hm
      by_cases hc : elapsed ≤ (slaDays : Int)
      · simp [sla_status, hc]
      · simp [sla_status, hc]
  · subst ho; subst hp
    simp [sla_status]
  · subst ho; subst hp
    refine ⟨fun hr => ?_, fun hr0 hr1 => ?_, fun hr => ?_⟩
    · have h1 : ¬(remaining > 1) := by omega
      have h2 : ¬(remaining ≥ 0) := by omega
      simp [sla_status, h1, h2]
    · have h1 : ¬(remaining > 1) := by omega
      simp [sla_status, h1, hr0]
    · simp [sla_status, hr]

/-- Claim C2: the status of every projected ticket follows the fixed priority
order — a closed ticket's status is Completed or Completed Late (Completed
exactly when elapsed ≤ slaDays for non-Monday rows, or when the closure
as-of point is at or before the deadline for Monday-deadline rows) and never
anything else, regardless of the pause predicate; an open paused ticket is
Paused even when its remaining business days are negative; an open active
ticket is Breached below 0 remaining, At Risk on 0..1, On Track above 1. -/
theorem sla_status_priority_for_ticket (it : RawItem) (c refTime : Nat) :
    ((project it c refTime).isOpen = false →
       ((project it c refTime).status = .completed
        ∨ (project it c refTime).status = .completedLate)
       ∧ ((project it c refTime).isMondayDeadline = true →
            ((project it c refTime).status = .completed
             ↔ tsLe (closure_end (project it c refTime).endDate
                      (project it c refTime).closedAt refTime)
                    (project it c refTime).slaDeadline = true))
       ∧ ((project it c refTime).isMondayDeadline = false →
            ((project it c refTime).status = .completed
             ↔ (project it c refTime).elapsed ≤ ((project it c refTime).slaDays : Int))))
    ∧ ((project it c refTime).isOpen = true → (project it c refTime).isPaused = true →
         (project it c refTime).status = .paused)
    ∧ ((project it c refTime).isOpen = true → (project it c refTime).isPaused = false →
         (((project it c refTime).remaining < 0 →
             (project it c refTime).status = .breached)
          ∧ (0 ≤ (project it c refTime).remaining → (project it c refTime).remaining ≤ 1 →
               (project it c refTime).status = .atRisk)
          ∧ (1 < (project it c refTime).remaining →
               (project it c refTime).status = .onTrack))) :=
  sla_status_spec (project it c refTime).isMondayDeadline (project it c refTime).isOpen
    (project it c refTime).isPaused (project it c refTime).slaDays
    (project it c refTime).elapsed (project it c refTime).remaining
    (project it c refTime).endDate (project it c refTime).closedAt
    (project it c refTime).slaDeadline refTime

/-- Claim C2 witness: a concrete closed Monday-deadline ticket resolved before
its deadline is Completed; a concrete open paused ticket with remaining
-11 is Paused; the same ticket active instead of paused is Breached. -/
theorem sla_status_priority_for_ticket_witness :
    (project ⟨1, "Completed", some 0, none, some 2000, none, "Acquisition CM", "Valid Win"⟩ 0 5000).status
      = .completed
    ∧ (project ⟨2, "Waiting for Info", some 0, none, none, some 28800, "PS team", "Quota Move"⟩ 0 28800).status
      = .paused
    ∧ (project ⟨3, "Active", some 0, none, none, none, "PS team", "Quota Move"⟩ 0 28800).status
      = .breached :=
  ⟨(((sla_status_priority_for_ticket
        ⟨1, "Completed", some 0, none, some 2000, none, "Acquisition CM", "Valid Win"⟩ 0 5000).1
        (by decide)).2.1 (by decide)).mpr (by decide),
   (sla_status_priority_for_ticket
        ⟨2, "Waiting for Info", some 0, none, none, some 28800, "PS team", "Quota Move"⟩ 0 28800).2.1
        (by decide) (by decide),
   ((sla_status_priority_for_ticket
        ⟨3, "Active", some 0, none, none, none, "PS team", "Quota Move"⟩ 0 28800).2.2
        (by decide) (by decide)).1 (by decide)⟩

/-- Claim C5: for every defined timestamp, `next_monday` yields a Monday
(weekday index 0) at 23:59 whose calendar date is strictly after the input's
date; a Monday input maps 7 calendar days ahead (the following Monday, never
the same day) and a Tuesday input maps 6 calendar days ahead. -/
theorem next_monday_spec (t r : Nat) (h : next_monday (some t) = some r) :
    r / 1440 % 7 = 0 ∧ r % 1440 = 23 * 60 + 59 ∧ t / 1440 < r / 1440
    ∧ (t / 1440 % 7 = 0 → r / 1440 = t / 1440 + 7)
    ∧ (t / 1440 % 7 = 1 → r / 1440 = t / 1440 + 6) := by
  simp only [next_monday, Option.some.injEq] at h
  split at h <;> omega

/-- Claim C5 witness: minute 0 is a Monday midnight and its next Monday
deadline is minute 11519 = day 7 at 23:59. -/
theorem next_monday_spec_witness :
    next_monday (some 0) = some 11519
    ∧ (11519 / 1440 % 7 = 0 ∧ 11519 % 1440 = 23 * 60 + 59 ∧ 0 / 1440 < 11519 / 1440
       ∧ (0 / 1440 % 7 = 0 → 11519 / 1440 = 0 / 1440 + 7)
       ∧ (0 / 1440 % 7 = 1 → 11519 / 1440 = 0 / 1440 + 6)) :=
  ⟨by decide, next_monday_spec 0 11519 (by decide)⟩

/-- Loop exit: once `added` reaches `n`, the current timestamp is returned. -/
theorem abd_go_stop (n current added : Nat) (h : ¬ added < n) :
    abd_go n current added = current := by
  rw [abd_go, if_neg h]

/-- Loop step onto a weekday: the day advances and the counter increments. -/
theorem abd_go_step_weekday (n current added : Nat) (h : added < n)
    (hw : (current + 1440) / 1440 % 7 < 5) :
    abd_go n current added = abd_go n (current + 1440) (added + 1) := by
  rw [abd_go, if_pos h, if_pos hw]

/-- Loop step onto a weekend day: the day advances, the counter does not. -/
theorem abd_go_step_weekend (n current added : Nat) (h : added < n)
    (hw : ¬ (current + 1440) / 1440 % 7 < 5) :
    abd_go n current added = abd_go n (current + 1440) added := by
  rw [abd_go, if_pos h, if_neg hw]

/-- Claim C6: `add_business_days` advances one calendar day at a time counting
only weekdays — zero business days returns the start unchanged, one business
day from any Friday lands on the following Monday (the weekend is skipped),
and an undefined start yields NaT rather than an error. -/
theorem add_business_days_spec :
    (∀ s : Nat, add_business_days (some s) (some 0) = some s)
    ∧ (∀ s : Nat, s / 1440 % 7 = 4 →
         add_business_days (some s) (some 1) = some (s + 3 * 1440)
         ∧ (s + 3 * 1440) / 1440 % 7 = 0
         ∧ (s + 3 * 1440) / 1440 = s / 1440 + 3)
    ∧ (∀ n : Option Nat, add_business_days none n = none) := by
  refine ⟨fun s => ?_, fun s hF => ?_, fun n => rfl⟩
  · simp only [add_business_days, Option.some.injEq]
    exact abd_go_stop 0 s 0 (by omega)
  · refine ⟨?_, by omega, by omega⟩
    simp only [add_business_days, Option.some.injEq]
    calc abd_go 1 s 0
        = abd_go 1 (s + 1440) 0 := abd_go_step_weekend 1 s 0 (by omega) (by omega)
      _ = abd_go 1 (s + 1440 + 1440) 0 :=
          abd_go_step_weekend 1 (s + 1440) 0 (by omega) (by omega)
      _ = abd_go 1 (s + 1440 + 1440 + 1440) 1 :=
          abd_go_step_weekday 1 (s + 1440 + 1440) 0 (by omega) (by omega)
      _ = s + 1440 + 1440 + 1440 := abd_go_stop 1 _ 1 (by omega)
      _ = s + 3 * 1440 := by omega

/-- Claim C6 witness: minute 5760 is a Friday midnight; adding one business
day lands on the following Monday, minute 10080 = 5760 + 3 days. -/
theorem add_business_days_spec_witness :
    add_business_days (some 5760) (some 1) = some (5760 + 3 * 1440)
    ∧ (5760 + 3 * 1440) / 1440 % 7 = 0
    ∧ (5760 + 3 * 1440) / 1440 = 5760 / 1440 + 3 :=
  add_business_days_spec.2.1 5760 (by decide)

/-- The specification-side count: the number of business-day dates (weekday
index 0-4) in the inclusive day-index range `[d1, d2]`. -/
def businessDatesInRange (d1 d2 : Nat) : Nat :=
  ((Finset.Icc d1 d2).filter (fun d => d % 7 < 5)).card

/-- The executable `bdate_range` length agrees with the inclusive-interval
business-date count. -/
theorem bdateRangeLen_eq_businessDatesInRange (d1 d2 : Nat) :
    bdateRangeLen d1 d2 = businessDatesInRange d1 d2 := by
  have key : ∀ (n a : Nat),
      (List.range n).countP (fun i => decide ((a + i) % 7 < 5))
        = ((Finset.Ico a (a + n)).filter (fun d => d % 7 < 5)).card := by
    intro n
    induction n with
    | zero => intro a; simp
    | succ m ih =>
      intro a
      rw [List.range_succ, List.countP_append,
        show a + (m + 1) = (a + m) + 1 by omega,
        Nat.Ico_succ_right_eq_insert_Ico (by omega), Finset.filter_insert]
      by_cases hp : (a + m) % 7 < 5
      · rw [if_pos hp, Finset.card_insert_of_not_mem (by simp [Finset.mem_filter]), ← ih a]
        simp [List.countP_cons, hp]
      · rw [if_neg hp, ← ih a]
        simp [List.countP_cons, hp]
  unfold bdateRangeLen businessDatesInRange
  by_cases hle : d1 ≤ d2
  · rw [key (d2 + 1 - d1) d1, show d1 + (d2 + 1 - d1) = d2 + 1 by omega,
      Nat.Ico_succ_right]
  · rw [show d2 + 1 - d1 = 0 by omega, Finset.Icc_eq_empty (by omega)]
    simp

/-- Claim C7: `business_days_between` equals the count of business-day dates
in the inclusive normalized range minus one, floored at zero; it is 0 when
both ends fall on the same business day, 0 when either end is NaT, and never
negative for any pair of inputs. -/
theorem business_days_between_spec :
    (∀ s e : Nat, business_days_between (some s) (some e)
       = max ((businessDatesInRange (s / 1440) (e / 1440) : Int) - 1) 0)
    ∧ (∀ s e : Nat, s / 1440 = e / 1440 → s / 1440 % 7 < 5 →
         business_days_between (some s) (some e) = 0)
    ∧ (∀ e : Option Nat, business_days_between none e = 0)
    ∧ (∀ s : Option Nat, business_days_between s none = 0)
    ∧ (∀ s e : Option Nat, 0 ≤ business_days_between s e) := by
  refine ⟨fun s e => ?_, fun s e hday hbday => ?_, fun e => rfl, fun s => ?_, fun s e => ?_⟩
  · rw [show business_days_between (some s) (some e)
        = max ((bdateRangeLen (s / 1440) (e / 1440) : Int) - 1) 0 from rfl,
      bdateRangeLen_eq_businessDatesInRange]
  · have hlen : bdateRangeLen (s / 1440) (e / 1440) = 1 := by
      rw [← hday]
      unfold bdateRangeLen
      rw [show s / 1440 + 1 - s / 1440 = 1 by omega,
        show List.range 1 = [0] from rfl, List.countP_cons]
      simp [hbday]
    show max ((bdateRangeLen (s / 1440) (e / 1440) : Int) - 1) 0 = 0
    rw [hlen]
    rfl
  · cases s <;> rfl
  · cases s <;> cases e
    · exact le_refl 0
    · exact le_refl 0
    · exact le_refl 0
    · exact le_max_right _ 0

/-- Claim C7 witness: both invocations on minute 100 (a Monday) return 0, and
the general formula instantiates there. -/
theorem business_days_between_spec_witness :
    business_days_between (some 100) (some 100)
      = max ((businessDatesInRange (100 / 1440) (100 / 1440) : Int) - 1) 0
    ∧ business_days_between (some 100) (some 100) = 0 :=
  ⟨business_days_between_spec.1 100 100,
   business_days_between_spec.2.1 100 100 (by decide) (by decide)⟩

/-- `List.find?` returns the first hit: with everything before it failing the
predicate and it passing, the result is that element. -/
theorem find?_first_hit {α : Type} (p : α → Bool) (pre post : List α) (kv : α)
    (hpre : ∀ x ∈ pre, p x = false) (hkv : p kv = true) :
    List.find? p (pre ++ kv :: post) = some kv := by
  induction pre with
  | nil => simp [List.find?, hkv]
  | cons a rest ih =>
    have ha : p a = false := hpre a (by simp)
    rw [List.cons_append, List.find?]
    rw [ha]
    exact ih (fun x hx => hpre x (by simp [hx]))

/-- Claim C8: `resolve_scenario` maps empty and "Unknown" sub-types to
"Other"; otherwise the first `SCENARIO_MAP` entry (in declaration order)
passing the bidirectional folded-substring test decides the scenario, and
with no matching entry the raw sub-type is returned unchanged — in
particular "Quota Move" resolves to "Quota Moves" and "Totally Custom Thing"
passes through. -/
theorem resolve_scenario_spec :
    resolve_scenario "" = "Other"
    ∧ resolve_scenario "Unknown" = "Other"
    ∧ resolve_scenario "Quota Move" = "Quota Moves"
    ∧ resolve_scenario "Totally Custom Thing" = "Totally Custom Thing"
    ∧ (∀ (st : String) (pre post : List (String × String)) (kv : String × String),
         st ≠ "" → st ≠ "Unknown" → SCENARIO_MAP = pre ++ kv :: post →
         (∀ kv' ∈ pre, scenarioMatch kv' st = false) → scenarioMatch kv st = true →
         resolve_scenario st = kv.2)
    ∧ (∀ st : String, st ≠ "" → st ≠ "Unknown" →
         (∀ kv ∈ SCENARIO_MAP, scenarioMatch kv st = false) →
         resolve_scenario st = st) := by
  refine ⟨by decide, by decide, by decide, by decide, ?_, ?_⟩
  · intro st pre post kv h1 h2 hmap hpre hkv
    unfold resolve_scenario
    rw [hmap, find?_first_hit _ pre post kv hpre hkv]
    simp [h1, h2]
  · intro st h1 h2 hall
    have hnone : SCENARIO_MAP.find? (fun kv => scenarioMatch kv st) = none :=
      List.find?_eq_none.mpr (fun x hx => by rw [hall x hx]; simp)
    unfold resolve_scenario
    rw [hnone]
    simp [h1, h2]

/-- Claim C8 witness: the first-match rule applied at the concrete split of
`SCENARIO_MAP` around the ("Quota Move", "Quota Moves") entry. -/
theorem resolve_scenario_spec_witness :
    resolve_scenario "Quota Move" = "Quota Moves" :=
  resolve_scenario_spec.2.2.2.2.1 "Quota Move"
    [("Grouping or HM", "Customer Grouping / Hierarchy Management"),
     ("Personnel", "Personnel Changes"),
     ("SL", "Owned-By / Agency / Service Location Override"),
     ("Reparenting", "Owned-By / Agency / Service Location Override"),
     ("Book Assignment", "Book Assignment Update"),
     ("Book update in Dynamics", "Book Assignment Update"),
     ("Book update in Tech", "Book Assignment Update")]
    [("Quota Moves", "Quota Moves"),
     ("Channel Partner", "Channel Partner Linkages"),
     ("Valid Win", "Weekly Win Processing"),
     ("Win Override", "Acquisition Win Override"),
     ("Growth MPM", "Pre/Post Growth MPM Assignment"),
     ("New Client Nomination", "New Client Nomination Processing"),
     ("Hierarchy Mapping", "Hierarchy Mapping"),
     ("New Joiner Mapping", "Mapping New Joiners to Sales Houses"),
     ("Bad Agency Setup", "Bad Agency Setup"),
     ("Missing Contacts", "Missing Contacts"),
     ("Unengaged", "Unengaged / Inactive Clients")]
    ("Quota Move", "Quota Moves")
    (by decide) (by decide) (by decide) (by decide) (by decide)

/-- Claim C9: a ticket whose creation date is missing or unparseable (coerced
to NaT) is dropped from the projected batch without disturbing it — the
output for the surrounding tickets is exactly what it would be without the
bad row — and every ticket with a defined creation date still projects into
the output. -/
theorem parse_items_drops_undated (pre post : List RawItem) (bad : RawItem)
    (refTime : Nat) (h : bad.createdAt = none) :
    parse_items (pre ++ bad :: post) refTime
      = parse_items pre refTime ++ parse_items post refTime
    ∧ (∀ (it : RawItem) (c : Nat), it ∈ pre ++ bad :: post → it.createdAt = some c →
         project it c refTime ∈ parse_items (pre ++ bad :: post) refTime) := by
  constructor
  · unfold parse_items
    rw [List.filterMap_append]
    congr 1
    rw [List.filterMap_cons_none (by simp only [h])]
  · intro it c hmem hc
    exact List.mem_filterMap.mpr ⟨it, hmem, by rw [hc]⟩

/-- Claim C9 witness: a concrete three-item batch whose middle item lacks a
creation date splits around the dropped row, and the first item still
projects into the output. -/
theorem parse_items_drops_undated_witness :
    parse_items
        [⟨1, "Active", some 0, none, none, none, "PS x", "Quota Move"⟩,
         ⟨9, "Active", none, none, none, none, "PS x", "Quota Move"⟩,
         ⟨2, "Completed", some 0, some 1000, none, none, "SMB y", "Missing Contacts"⟩] 5000
      = parse_items [⟨1, "Active", some 0, none, none, none, "PS x", "Quota Move"⟩] 5000
        ++ parse_items
             [⟨2, "Completed", some 0, some 1000, none, none, "SMB y", "Missing Contacts"⟩] 5000
    ∧ project ⟨1, "Active", some 0, none, none, none, "PS x", "Quota Move"⟩ 0 5000
        ∈ parse_items
            [⟨1, "Active", some 0, none, none, none, "PS x", "Quota Move"⟩,
             ⟨9, "Active", none, none, none, none, "PS x", "Quota Move"⟩,
             ⟨2, "Completed", some 0, some 1000, none, none, "SMB y", "Missing Contacts"⟩] 5000 :=
  ⟨(parse_items_drops_undated
      [⟨1, "Active", some 0, none, none, none, "PS x", "Quota Move"⟩]
      [⟨2, "Completed", some 0, some 1000, none, none, "SMB y", "Missing Contacts"⟩]
      ⟨9, "Active", none, none, none, none, "PS x", "Quota Move"⟩ 5000 rfl).1,
   (parse_items_drops_undated
      [⟨1, "Active", some 0, none, none, none, "PS x", "Quota Move"⟩]
      [⟨2, "Completed", some 0, some 1000, none, none, "SMB y", "Missing Contacts"⟩]
      ⟨9, "Active", none, none, none, none, "PS x", "Quota Move"⟩ 5000 rfl).2
      ⟨1, "Active", some 0, none, none, none, "PS x", "Quota Move"⟩ 0 (by decide) rfl⟩

/-- A value produced by `pyGet` is one of the association list's values. -/
theorem pyGet_mem {α : Type} (m : List (String × α)) (k : String) (v : α)
    (h : pyGet m k = some v) : v ∈ m.map Prod.snd := by
  induction m with
  | nil => cases h
  | cons kv rest ih =>
    obtain ⟨k', v'⟩ := kv
    rw [pyGet] at h
    by_cases he : k' = k
    · rw [if_pos he] at h
      simp only [Option.some.injEq] at h
      simp [h]
    · rw [if_neg he] at h
      simp [ih h]

/-- `sla_from_entry` only ever returns the entry's default or one of its
integer team-exception values. -/
theorem sla_from_entry_mem (e : SlaEntry) (team : String)
    (hd : e.default ∈ [2, 3, 4, 5])
    (he : ∀ kv ∈ e.extras, kv.2 ∈ [2, 3, 4, 5]) :
    sla_from_entry e team ∈ [2, 3, 4, 5] := by
  unfold sla_from_entry
  cases hf : e.extras.find? (fun kv => pyContains (pyUpper kv.1) (pyUpper team)) with
  | none => exact hd
  | some kv => exact he kv (List.mem_of_find?_eq_some hf)

/-- Every entry the scenario-level lookup can produce (the fifteen catalog
entries and the global default) carries values in {2, 3, 4, 5} only. -/
theorem scenario_entry_good (scenario : String) :
    (scenario_sla_lookup scenario).default ∈ [2, 3, 4, 5]
    ∧ ∀ kv ∈ (scenario_sla_lookup scenario).extras, kv.2 ∈ [2, 3, 4, 5] := by
  unfold scenario_sla_lookup
  cases hf : pyGet SCENARIO_SLA scenario with
  | none => exact ⟨by decide, by decide⟩
  | some e =>
    have hall : ∀ x ∈ SCENARIO_SLA.map Prod.snd,
        x.default ∈ [2, 3, 4, 5] ∧ ∀ kv ∈ x.extras, kv.2 ∈ [2, 3, 4, 5] := by decide
    exact hall e (pyGet_mem _ _ _ hf)

/-- Claim C10: with the production rule tables, `get_sla_days` always returns
one of 2, 3, 4 or 5 business days — in particular it is strictly positive,
so a zero-duration SLA can never arise. -/
theorem get_sla_days_range (scenario team : String) :
    get_sla_days scenario team ∈ [2, 3, 4, 5] ∧ 0 < get_sla_days scenario team := by
  have hmem : get_sla_days scenario team ∈ [2, 3, 4, 5] := ?_
  · refine ⟨hmem, ?_⟩
    simp only [List.mem_cons, List.not_mem_nil, or_false] at hmem
    omega
  have hScen := scenario_entry_good scenario
  have hFall : sla_from_entry (scenario_sla_lookup scenario) team ∈ [2, 3, 4, 5] :=
    sla_from_entry_mem _ _ hScen.1 hScen.2
  have hteam : pyGet TEAM_SLA_OVERRIDES team
      = (if "SMB" = team then some ⟨some 5, []⟩
         else if "Windows Store" = team then some ⟨some 3, []⟩
         else if "Acquisition & Growth" = team
         then some ⟨none, [("Book Assignment", 2), ("Grouping or HM", 4),
                           ("Customer Grouping / Hierarchy Management", 4)]⟩
         else none) := rfl
  unfold get_sla_days
  rw [hteam]
  split_ifs with h1 h2 h3
  · exact (by decide : (5 : Nat) ∈ [2, 3, 4, 5])
  · exact (by decide : (3 : Nat) ∈ [2, 3, 4, 5])
  · show (match List.find? (fun kv => pyContains (pyLower kv.1) (pyLower scenario))
            [("Book Assignment", 2), ("Grouping or HM", 4),
             ("Customer Grouping / Hierarchy Management", 4)] with
          | some kv => kv.2
          | none => sla_from_entry (scenario_sla_lookup scenario) team) ∈ [2, 3, 4, 5]
    cases hf : List.find? (fun kv => pyContains (pyLower kv.1) (pyLower scenario))
        [("Book Assignment", 2), ("Grouping or HM", 4),
         ("Customer Grouping / Hierarchy Management", 4)] with
    | none => exact hFall
    | some kv =>
      have hkv : ∀ kv' ∈ [(("Book Assignment" : String), (2 : Nat)), ("Grouping or HM", 4),
          ("Customer Grouping / Hierarchy Management", 4)], kv'.2 ∈ [2, 3, 4, 5] := by decide
      exact hkv kv (List.mem_of_find?_eq_some hf)
  · exact hFall
